import Mathlib

/-!
Verification of `bench.py` (ragged-array compound-multiplication micro-benchmark).

The Python source is shallowly embedded below.  External libraries (numpy's
seeded generator, the wall clock, joblib's disk cache, device availability)
are modelled through explicit parameters or concrete stand-ins, as noted in
the doc comment of each definition; everything else is translated directly
from `src/bench.py`.
-/

namespace Bench

/-- Modelled from the spec: numpy's seeded pseudo-random generator
(`np.random.default_rng`), external to the repository.  A linear
congruential step on a 32-bit state stands in for the PCG64 stream; it
preserves what the spec relies on: determinism from the seed and values
in `[0,1)`. -/
def rngStep (s : Nat) : Nat := (1664525 * s + 1013904223) % 2 ^ 32

/-- Modelled from the spec: `np.random.default_rng(seed)` — the generator
state freshly initialised from a seed. -/
def default_rng (seed : Nat) : Nat := seed

/-- One draw: the value produced from state `s` and the successor state. -/
def rngNext (s : Nat) : ℚ × Nat := (((rngStep s : ℚ)) / (2 ^ 32 : ℚ), rngStep s)

/-- Model of `rng.random(size=k)`: draw `k` values in `[0,1)`, threading the state. -/
def rngRandom : Nat → Nat → List ℚ × Nat
  | 0, s => ([], s)
  | k + 1, s =>
      let p := rngNext s
      let q := rngRandom k p.2
      (p.1 :: q.1, q.2)

/-- The loop of `setup` (bench.py lines 22-24): for `i` in `1..fuel`
starting at `i`, append `rng.random(size=i)`. -/
def buildRows : Nat → Nat → Nat → List (List ℚ)
  | 0, _, _ => []
  | fuel + 1, i, s =>
      let p := rngRandom i s
      p.1 :: buildRows fuel (i + 1) p.2

/-- The body of `setup` given the freshly created generator state. -/
def setupFromGen (g : Nat) : List (List ℚ) := buildRows 10000 1 g

/-- Embedding of `setup()` (bench.py lines 20-27): re-creates the generator from the fixed
seed 123 and builds the ragged dataset of rows `1..10000`; the unused dense
`regular_data` array is allocated and dropped, and only the ragged array is
returned.  The parameter `env` models the invocation context (any generator
state the process might otherwise carry between calls); the body ignores it,
exactly as the source re-runs `np.random.default_rng(123)` on every call. -/
def setup (env : Nat) : List (List ℚ) :=
  let _ := env
  setupFromGen (default_rng 123)

/-- Two-dimensional indexing `rows[i][j]`, `none` when out of range. -/
def idx2 (rows : List (List ℚ)) (i j : Nat) : Option ℚ :=
  (rows.get? i).bind fun row => row.get? j

/-- Modelled from the spec: the monotone wall clock behind
`time.perf_counter`, external to the repository.  `read k` is the instant
returned by the `k`-th `perf_counter()` call of the run. -/
structure Clock where
  read : Nat → ℚ

/-- One `time.perf_counter()` call: the current instant plus the bumped
call counter. -/
def perfCounter (c : Clock) (k : Nat) : ℚ × Nat := (c.read k, k + 1)

/-- The concrete clock whose `k`-th reading is `k` seconds. -/
def natClock : Clock := ⟨fun k => (k : ℚ)⟩

/-- Errors that abort a benchmark invocation: the `ValueError` raised by
tuple-unpacking a non-pair, and the spec's *BackendUnavailable* condition.
Each error is paired with the number of `perf_counter` calls made before
the raise, so "fails before any timing" is expressible. -/
inductive BenchErr
  | unpackError
  | backendUnavailable
deriving DecidableEq

/-- Which Python class a backend result is an instance of, as far as
`check_result`'s `isinstance` tests can see. -/
inductive RKind
  | tfRagged
  | torchTensor
  | plain
deriving DecidableEq

/-- A backend result: its class tag together with its ragged contents. -/
structure BResult where
  kind : RKind
  rows : List (List ℚ)
deriving DecidableEq

/-- Elementwise product of two equally ragged rows (`a * b` on one row). -/
def mulList (a b : List ℚ) : List ℚ := List.zipWith (fun x y => x * y) a b

/-- Elementwise product of two ragged results (`a * b` in each backend). -/
def raggedMul (a b : BResult) : BResult :=
  ⟨a.kind, List.zipWith mulList a.rows b.rows⟩

/-- Python tuple unpacking `a, b = l`: succeeds exactly on a two-element
sequence, otherwise raises `ValueError`. -/
def unpack2 {α : Type} : List α → Option (α × α)
  | [a, b] => some (a, b)
  | _ => none

/-- One trial of `awkward_bench` (bench.py lines 63-74).  Line 64 unpacks
`setup()` into `ragged_data, regular_data`; since `setup` returns the
single 10000-row array, this raises before `start = time.perf_counter()`
on line 65 — the error carries the unchanged clock counter `k`.  The
continuation (dead code for the actual dataset, typed here at the row
level the unpacking would produce) converts to `ak.Array` and multiplies
four times inside the two timing windows. -/
def awkward_trial (c : Clock) (k : Nat) :
    Except (BenchErr × Nat) (ℚ × ℚ × List ℚ × Nat) :=
  match unpack2 (setup 0) with
  | none => .error (.unpackError, k)
  | some rr =>
      let ragged_data := rr.1
      let p0 := perfCounter c k
      let ragged := ragged_data
      let p1 := perfCounter c p0.2
      let result := mulList (mulList (mulList ragged ragged) ragged) ragged
      let p2 := perfCounter c p1.2
      let granular_sec := p2.1 - p1.1
      let p3 := perfCounter c p2.2
      let total_sec := p3.1 - p0.1
      .ok (total_sec, granular_sec, result, p3.2)

/-- The trial loop of `awkward_bench` (bench.py lines 56-75): run `fuel`
trials from clock counter `k`, collecting both time lists in order and the
last trial's result. -/
def awkward_benchAux (c : Clock) :
    Nat → Nat → Except (BenchErr × Nat) (List ℚ × List ℚ × Option (List ℚ))
  | 0, _ => .ok ([], [], none)
  | fuel + 1, k =>
      match awkward_trial c k with
      | .error e => .error e
      | .ok (t, g, r, k1) =>
          match awkward_benchAux c fuel k1 with
          | .error e => .error e
          | .ok (ts, gs, rl) => .ok (t :: ts, g :: gs, some (rl.getD r))

/-- Embedding of `awkward_bench(n_trials)` (bench.py lines 56-75), run against clock
`c` starting from a fresh call counter. -/
def awkward_bench (c : Clock) (n_trials : Nat) :
    Except (BenchErr × Nat) (List ℚ × List ℚ × Option (List ℚ)) :=
  awkward_benchAux c n_trials 0

/-- Conversion `tf.ragged.constant(data)` (bench.py line 89): the ragged data tagged
as a `tf.RaggedTensor`. -/
def tf_ragged_constant (rows : List (List ℚ)) : BResult := ⟨.tfRagged, rows⟩

/-- One trial of `tf_bench` (bench.py lines 84-101): `start` is read, the
`tf.device(device)` context is entered (modelled from the spec: it raises
*BackendUnavailable* when `device` is not in the available-device list
`avail`), the dataset is converted, the granular window times the
four-fold product *and* the forcing `print(result[10][1])` of line 95,
then the outer window closes. -/
def tf_trial (c : Clock) (avail : List String) (device : String) (k : Nat) :
    Except (BenchErr × Nat) (ℚ × ℚ × BResult × Nat) :=
  let ragged_data := setup 0
  let p0 := perfCounter c k
  if device ∈ avail then
    let ragged := tf_ragged_constant ragged_data
    let p1 := perfCounter c p0.2
    let result := raggedMul (raggedMul (raggedMul ragged ragged) ragged) ragged
    let _printed := idx2 result.rows 10 1
    let p2 := perfCounter c p1.2
    let granular_sec := p2.1 - p1.1
    let p3 := perfCounter c p2.2
    let total_sec := p3.1 - p0.1
    .ok (total_sec, granular_sec, result, p3.2)
  else .error (.backendUnavailable, p0.2)

/-- The trial loop of `tf_bench` (bench.py lines 84-102). -/
def tf_benchAux (c : Clock) (avail : List String) (device : String) :
    Nat → Nat → Except (BenchErr × Nat) (List ℚ × List ℚ × Option BResult)
  | 0, _ => .ok ([], [], none)
  | fuel + 1, k =>
      match tf_trial c avail device k with
      | .error e => .error e
      | .ok (t, g, r, k1) =>
          match tf_benchAux c avail device fuel k1 with
          | .error e => .error e
          | .ok (ts, gs, rl) => .ok (t :: ts, g :: gs, some (rl.getD r))

/-- Embedding of `tf_bench(device, n_trials)` (bench.py lines 84-102). -/
def tf_bench (c : Clock) (avail : List String) (device : String)
    (n_trials : Nat) :
    Except (BenchErr × Nat) (List ℚ × List ℚ × Option BResult) :=
  tf_benchAux c avail device n_trials 0

/-- Conversion `torch.nested.nested_tensor(data)` (bench.py line 117): the ragged
data tagged as a `torch.Tensor`. -/
def torch_nested_tensor (rows : List (List ℚ)) : BResult := ⟨.torchTensor, rows⟩

/-- One trial of `torch_bench` (bench.py lines 106-126): same shape as
`tf_trial` — `torch.device(device)` is modelled from the spec as raising
*BackendUnavailable* for an unavailable device, and the forcing
`print(result[10][1])` of line 122 sits inside the granular window. -/
def torch_trial (c : Clock) (avail : List String) (device : String) (k : Nat) :
    Except (BenchErr × Nat) (ℚ × ℚ × BResult × Nat) :=
  let ragged_data := setup 0
  let p0 := perfCounter c k
  if device ∈ avail then
    let ragged := torch_nested_tensor ragged_data
    let p1 := perfCounter c p0.2
    let result := raggedMul (raggedMul (raggedMul ragged ragged) ragged) ragged
    let _printed := idx2 result.rows 10 1
    let p2 := perfCounter c p1.2
    let granular_sec := p2.1 - p1.1
    let p3 := perfCounter c p2.2
    let total_sec := p3.1 - p0.1
    .ok (total_sec, granular_sec, result, p3.2)
  else .error (.backendUnavailable, p0.2)

/-- The trial loop of `torch_bench` (bench.py lines 106-127). -/
def torch_benchAux (c : Clock) (avail : List String) (device : String) :
    Nat → Nat → Except (BenchErr × Nat) (List ℚ × List ℚ × Option BResult)
  | 0, _ => .ok ([], [], none)
  | fuel + 1, k =>
      match torch_trial c avail device k with
      | .error e => .error e
      | .ok (t, g, r, k1) =>
          match torch_benchAux c avail device fuel k1 with
          | .error e => .error e
          | .ok (ts, gs, rl) => .ok (t :: ts, g :: gs, some (rl.getD r))

/-- Embedding of `torch_bench(device, n_trials)` (bench.py lines 106-127). -/
def torch_bench (c : Clock) (avail : List String) (device : String)
    (n_trials : Nat) :
    Except (BenchErr × Nat) (List ℚ × List ℚ × Option BResult) :=
  torch_benchAux c avail device n_trials 0

/-- A pytaco sparse tensor: its dimension and the explicitly inserted
coordinate/value pairs (bench.py lines 141-145). -/
structure Taco where
  dim : Nat
  entries : List ((Nat × Nat) × ℚ)
deriving DecidableEq

/-- Insertion `A.insert([row, col], v)` (bench.py line 148). -/
def taco_insert (A : Taco) (row col : Nat) (v : ℚ) : Taco :=
  ⟨A.dim, ((row, col), v) :: A.entries⟩

/-- The inner insertion loop over one row (bench.py lines 147-148). -/
def taco_insertRow (A : Taco) (row : Nat) : Nat → List ℚ → Taco
  | _, [] => A
  | col, v :: vs => taco_insertRow (taco_insert A row col v) row (col + 1) vs

/-- The nested insertion loop over all rows (bench.py lines 146-148). -/
def taco_insertAll (A : Taco) : Nat → List (List ℚ) → Taco
  | _, [] => A
  | row, r :: rs => taco_insertAll (taco_insertRow A row 0 r) (row + 1) rs

/-- Evaluation `result.evaluate()` after `result[i,j] = A[i,j]*A[i,j]*A[i,j]*A[i,j]`
(bench.py lines 156-157): force the lazy assignment, raising every stored
entry to the fourth power. -/
def taco_evaluate (A : Taco) : Taco :=
  ⟨A.dim, A.entries.map fun e => (e.1, e.2 * e.2 * e.2 * e.2)⟩

/-- Collection `result.to_array()` (bench.py line 160): the dense collected form,
tagged as a plain (numpy) object of outer length `dim`. -/
def taco_to_array (A : Taco) : BResult :=
  ⟨.plain, (List.range A.dim).map fun i =>
    (List.range A.dim).map fun j =>
      (A.entries.find? (fun e => e.1 = (i, j))).elim 0 fun e => e.2⟩

/-- One trial of `pytaco_bench` (bench.py lines 136-162): the outer timer
starts, the sparse tensor is built by element-by-element insertion, the
granular window times the lazy four-fold product assignment *and* the
forcing `result.evaluate()`, then `to_array` and the outer stop follow. -/
def pytaco_trial (c : Clock) (k : Nat) :
    Except (BenchErr × Nat) (ℚ × ℚ × BResult × Nat) :=
  let ragged_data := setup 0
  let p0 := perfCounter c k
  let n := ragged_data.length
  let A := taco_insertAll ⟨n, []⟩ 0 ragged_data
  let p1 := perfCounter c p0.2
  let result := taco_evaluate A
  let p2 := perfCounter c p1.2
  let granular_sec := p2.1 - p1.1
  let collected := taco_to_array result
  let p3 := perfCounter c p2.2
  let total_sec := p3.1 - p0.1
  .ok (total_sec, granular_sec, collected, p3.2)

/-- The trial loop of `pytaco_bench` (bench.py lines 134-163). -/
def pytaco_benchAux (c : Clock) :
    Nat → Nat → Except (BenchErr × Nat) (List ℚ × List ℚ × Option BResult)
  | 0, _ => .ok ([], [], none)
  | fuel + 1, k =>
      match pytaco_trial c k with
      | .error e => .error e
      | .ok (t, g, r, k1) =>
          match pytaco_benchAux c fuel k1 with
          | .error e => .error e
          | .ok (ts, gs, rl) => .ok (t :: ts, g :: gs, some (rl.getD r))

/-- Embedding of `pytaco_bench(n_trials)` (bench.py lines 134-163). -/
def pytaco_bench (c : Clock) (n_trials : Nat) :
    Except (BenchErr × Nat) (List ℚ × List ℚ × Option BResult) :=
  pytaco_benchAux c n_trials 0

/-- The inner column loop of `raw_python_bench` (bench.py lines 47-48):
replace each element of a row by `math.sqrt` of it, in iteration order.
The square-root itself is floating-point and external, so it is passed in
as a function `sq`. -/
def sqrtRow (sq : ℚ → ℚ) : List ℚ → List ℚ
  | [] => []
  | x :: xs => sq x :: sqrtRow sq xs

/-- The outer row loop of `raw_python_bench` (bench.py lines 46-48). -/
def sqrtRows (sq : ℚ → ℚ) : List (List ℚ) → List (List ℚ)
  | [] => []
  | r :: rs => sqrtRow sq r :: sqrtRows sq rs

/-- One trial of `raw_python_bench` (bench.py lines 44-52): fresh dataset,
one timer around the whole nested traversal, no granular window. -/
def raw_trial (c : Clock) (sq : ℚ → ℚ) (k : Nat) : ℚ × List (List ℚ) × Nat :=
  let ragged_data := setup 0
  let p0 := perfCounter c k
  let mutated := sqrtRows sq ragged_data
  let p1 := perfCounter c p0.2
  (p1.1 - p0.1, mutated, p1.2)

/-- The trial loop of `raw_python_bench` (bench.py lines 38-53): unlike
the other adapters it returns a *pair* — the total-time list and the last
trial's mutated dataset — with no granular list (`none` models the
`NameError` a zero-trial call would hit on the unbound `ragged_data`). -/
def raw_python_benchAux (c : Clock) (sq : ℚ → ℚ) :
    Nat → Nat → List ℚ × Option (List (List ℚ))
  | 0, _ => ([], none)
  | fuel + 1, k =>
      let (t, d, k1) := raw_trial c sq k
      let (ts, dl) := raw_python_benchAux c sq fuel k1
      (t :: ts, some (dl.getD d))

/-- Embedding of `raw_python_bench(n_trials)` (bench.py lines 38-53). -/
def raw_python_bench (c : Clock) (sq : ℚ → ℚ) (n_trials : Nat) :
    List ℚ × Option (List (List ℚ)) :=
  raw_python_benchAux c sq n_trials 0

/-- The default relative tolerance of `numpy.testing.assert_allclose`. -/
def rtol : ℚ := 1 / 10 ^ 7

/-- Predicate of `assert_allclose(actual, desired)` with default tolerances
(`rtol=1e-7`, `atol=0`): `|actual - desired| <= rtol * |desired|`. -/
def allclose (actual desired : ℚ) : Prop :=
  |actual - desired| ≤ rtol * |desired|

instance (a d : ℚ) : Decidable (allclose a d) := by
  unfold allclose; infer_instance

/-- How `check_result` can fail: a failed `assert` (or `assert_allclose`),
or an `IndexError` when the spot-checked position `[10][1]` is absent. -/
inductive CheckErr
  | assertionError
  | indexError
deriving DecidableEq

/-- Embedding of `check_result(orig_data, result)` (bench.py lines 30-35): results that
are neither `tf.RaggedTensor` nor `torch.Tensor` must satisfy
`len(result) == len(orig_data)`; `tf.RaggedTensor` results must satisfy
`result.shape[0] == len(orig_data)`; `torch.Tensor` results get no shape
check; then `assert_allclose(result[10][1], orig_data[10][1] ** 4)`. -/
def check_result (orig_data : List (List ℚ)) (result : BResult) :
    Except CheckErr Unit :=
  let shape : Except CheckErr Unit :=
    match result.kind with
    | .plain =>
        if result.rows.length = orig_data.length then .ok ()
        else .error .assertionError
    | .tfRagged =>
        if result.rows.length = orig_data.length then .ok ()
        else .error .assertionError
    | .torchTensor => .ok ()
  match shape with
  | .error e => .error e
  | .ok _ =>
      match idx2 result.rows 10 1, idx2 orig_data 10 1 with
      | some a, some d =>
          if allclose a (d ^ 4) then .ok () else .error .assertionError
      | _, _ => .error .indexError

/-- The shape condition `check_result` imposes, by result class: outer
length must match for plain and `tf.RaggedTensor` results, nothing is
required of `torch.Tensor` results. -/
def shapeOK (orig_data : List (List ℚ)) (result : BResult) : Prop :=
  match result.kind with
  | .plain => result.rows.length = orig_data.length
  | .tfRagged => result.rows.length = orig_data.length
  | .torchTensor => True

/-- Modelled from the spec: the per-function argument-keyed store behind
`joblib.Memory(...).cache` (bench.py line 17), external to the repository.
`entries` is the persisted key-to-value map of one cached function and
`execCount` counts true executions of its body. -/
structure MemoState (α β : Type) where
  entries : List (α × β)
  execCount : Nat

/-- Cache lookup by exact argument key. -/
def lookupMemo {α β : Type} [DecidableEq α] : List (α × β) → α → Option β
  | [], _ => none
  | (k, v) :: rest, a => if k = a then some v else lookupMemo rest a

/-- Modelled from the spec: one invocation of a `@memory.cache`-wrapped
function `f` at argument `a` — return the stored value on a hit;
otherwise execute `f`, store the full return value under the key, and
bump the execution counter. -/
def memoCall {α β : Type} [DecidableEq α] (f : α → β) (a : α)
    (s : MemoState α β) : β × MemoState α β :=
  match lookupMemo s.entries a with
  | some v => (v, s)
  | none => (f a, ⟨(a, f a) :: s.entries, s.execCount + 1⟩)

/-- The observable steps of one adapter trial, in program order. -/
inductive Event
  | startTotal
  | convertToBackend
  | createTensor
  | insertElement
  | createResultTensor
  | startGranular
  | computeMul
  | forceEval
  | stopGranular
  | collectResult
  | stopTotal
deriving DecidableEq

/-- The step order of one `tf_bench` trial (bench.py lines 87-100):
`start` (line 87), `tf.ragged.constant` (89), `granular_start` (90), the
four-fold product (91), the forcing `print(result[10][1])` (95), the
granular stop (97), the outer stop (99). -/
def tfTrialTrace : List Event :=
  [.startTotal, .convertToBackend, .startGranular, .computeMul,
   .forceEval, .stopGranular, .stopTotal]

/-- The step order of one `torch_bench` trial (bench.py lines 115-125):
identical shape to `tfTrialTrace`, with `torch.nested.nested_tensor`
(117) as the conversion and the forcing print on line 122. -/
def torchTrialTrace : List Event :=
  [.startTotal, .convertToBackend, .startGranular, .computeMul,
   .forceEval, .stopGranular, .stopTotal]

/-- The step order of one `pytaco_bench` trial (bench.py lines 138-162):
`start` (138), the sparse tensor construction (141), the insertion loops
(146-148), the result tensor (149), `granular_start` (155), the lazy
product assignment (156), the forcing `result.evaluate()` (157), the
granular stop (158), `to_array` (160), the outer stop (161). -/
def pytacoTrialTrace : List Event :=
  [.startTotal, .createTensor, .insertElement, .createResultTensor,
   .startGranular, .computeMul, .forceEval, .stopGranular,
   .collectResult, .stopTotal]

/-- The events strictly between `startGranular` and `stopGranular`: what
the granular window actually times. -/
def granularWindow (tr : List Event) : List Event :=
  ((tr.dropWhile fun e => e ≠ .startGranular).drop 1).takeWhile
    fun e => e ≠ .stopGranular

/-- The four-fold product a `tf_bench` trial computes (bench.py line 91). -/
def tfResult : BResult :=
  raggedMul (raggedMul (raggedMul (tf_ragged_constant (setup 0))
    (tf_ragged_constant (setup 0))) (tf_ragged_constant (setup 0)))
    (tf_ragged_constant (setup 0))

/-- The four-fold product a `torch_bench` trial computes (bench.py line 119). -/
def torchResult : BResult :=
  raggedMul (raggedMul (raggedMul (torch_nested_tensor (setup 0))
    (torch_nested_tensor (setup 0))) (torch_nested_tensor (setup 0)))
    (torch_nested_tensor (setup 0))

/-- The collected array a `pytaco_bench` trial ends with (bench.py line 160). -/
def pytacoCollected : BResult :=
  taco_to_array (taco_evaluate (taco_insertAll ⟨(setup 0).length, []⟩ 0 (setup 0)))

/-- The two timing lists of a benchmark invocation (empty when the
invocation raised before returning them). -/
def benchTimes {ε ρ : Type} : Except ε (List ℚ × List ℚ × ρ) → List ℚ × List ℚ
  | .ok (ts, gs, _) => (ts, gs)
  | .error _ => ([], [])

/-! ### Supporting lemmas -/

lemma rngRandom_fst_length (k s : Nat) : (rngRandom k s).1.length = k := by
  induction k generalizing s with
  | zero => rfl
  | succ k ih => simpa [rngRandom] using ih (rngNext s).2

lemma buildRows_length (fuel i s : Nat) : (buildRows fuel i s).length = fuel := by
  induction fuel generalizing i s with
  | zero => rfl
  | succ fuel ih => simpa [buildRows] using ih (i + 1) (rngRandom i s).2

lemma buildRows_map_length (fuel i s : Nat) :
    (buildRows fuel i s).map List.length = List.range' i fuel := by
  induction fuel generalizing i s with
  | zero => rfl
  | succ fuel ih =>
      simp [buildRows, List.range'_succ, rngRandom_fst_length, ih]

lemma setup_length (env : Nat) : (setup env).length = 10000 := by
  simp [setup, setupFromGen, buildRows_length]

lemma setup_map_length (env : Nat) :
    (setup env).map List.length = List.range' 1 10000 := by
  simp [setup, setupFromGen, buildRows_map_length]

lemma get?_range' (s n i : Nat) (h : i < n) :
    (List.range' s n).get? i = some (s + i) := by
  induction n generalizing s i with
  | zero => omega
  | succ n ih =>
      cases i with
      | zero => simp [List.range'_succ]
      | succ i =>
          rw [List.range'_succ]
          simpa [Nat.add_assoc, Nat.add_comm 1 i] using ih (s + 1) i (by omega)

lemma rngNext_fst_bounds (s : Nat) : 0 ≤ (rngNext s).1 ∧ (rngNext s).1 < 1 := by
  constructor
  · exact div_nonneg (by positivity) (by positivity)
  · rw [rngNext, div_lt_one (by positivity)]
    have h : rngStep s < 2 ^ 32 := Nat.mod_lt _ (by positivity)
    exact_mod_cast h

lemma rngRandom_mem_bounds (k s : Nat) :
    ∀ x ∈ (rngRandom k s).1, 0 ≤ x ∧ x < 1 := by
  induction k generalizing s with
  | zero => intro x hx; simp [rngRandom] at hx
  | succ k ih =>
      intro x hx
      simp only [rngRandom, List.mem_cons] at hx
      rcases hx with hx | hx
      · exact hx ▸ rngNext_fst_bounds s
      · exact ih (rngNext s).2 x hx

lemma buildRows_mem_bounds (fuel i s : Nat) :
    ∀ row ∈ buildRows fuel i s, ∀ x ∈ row, 0 ≤ x ∧ x < 1 := by
  induction fuel generalizing i s with
  | zero => intro row hrow; simp [buildRows] at hrow
  | succ fuel ih =>
      intro row hrow
      simp only [buildRows, List.mem_cons] at hrow
      rcases hrow with hrow | hrow
      · exact hrow ▸ rngRandom_mem_bounds i s
      · exact ih (i + 1) (rngRandom i s).2 row hrow

lemma two_mul_sum_range' (n s : Nat) :
    2 * (List.range' s (n + 1)).sum = (n + 1) * (2 * s + n) := by
  induction n generalizing s with
  | zero => simp [List.range'_succ]
  | succ n ih =>
      rw [List.range'_succ, List.sum_cons, Nat.mul_add, ih (s + 1)]
      ring

lemma setup_mem_bounds (env : Nat) :
    ∀ row ∈ setup env, ∀ x ∈ row, 0 ≤ x ∧ x < 1 :=
  buildRows_mem_bounds 10000 1 (default_rng 123)

lemma unpack2_eq_none_of_len {α : Type} (l : List α) (h : l.length ≠ 2) :
    unpack2 l = none := by
  match l with
  | [] => rfl
  | [_] => rfl
  | [_, _] => simp at h
  | _ :: _ :: _ :: _ => rfl

lemma unpack2_setup : unpack2 (setup 0) = none :=
  unpack2_eq_none_of_len _ (by rw [setup_length]; omega)

lemma awkward_trial_error (c : Clock) (k : Nat) :
    awkward_trial c k = .error (.unpackError, k) := by
  rw [awkward_trial, unpack2_setup]

lemma awkward_benchAux_error (c : Clock) :
    ∀ fuel k, 1 ≤ fuel →
      awkward_benchAux c fuel k = .error (.unpackError, k) := by
  intro fuel k h
  obtain ⟨m, rfl⟩ : ∃ m, fuel = m + 1 := ⟨fuel - 1, by omega⟩
  rw [awkward_benchAux, awkward_trial_error]

lemma tf_trial_ok (c : Clock) (avail : List String) (device : String)
    (h : device ∈ avail) (k : Nat) :
    tf_trial c avail device k =
      .ok (c.read (k + 3) - c.read k, c.read (k + 2) - c.read (k + 1),
        tfResult, k + 4) := by
  simp only [tf_trial, perfCounter, if_pos h, tfResult]

lemma tf_trial_error (c : Clock) (avail : List String) (device : String)
    (h : device ∉ avail) (k : Nat) :
    tf_trial c avail device k = .error (.backendUnavailable, k + 1) := by
  simp only [tf_trial, perfCounter, if_neg h]

lemma torch_trial_ok (c : Clock) (avail : List String) (device : String)
    (h : device ∈ avail) (k : Nat) :
    torch_trial c avail device k =
      .ok (c.read (k + 3) - c.read k, c.read (k + 2) - c.read (k + 1),
        torchResult, k + 4) := by
  simp only [torch_trial, perfCounter, if_pos h, torchResult]

lemma torch_trial_error (c : Clock) (avail : List String) (device : String)
    (h : device ∉ avail) (k : Nat) :
    torch_trial c avail device k = .error (.backendUnavailable, k + 1) := by
  simp only [torch_trial, perfCounter, if_neg h]

lemma pytaco_trial_ok (c : Clock) (k : Nat) :
    pytaco_trial c k =
      .ok (c.read (k + 3) - c.read k, c.read (k + 2) - c.read (k + 1),
        pytacoCollected, k + 4) := by
  simp only [pytaco_trial, perfCounter, pytacoCollected]

lemma tf_benchAux_ok (c : Clock) (avail : List String) (device : String)
    (h : device ∈ avail) :
    ∀ fuel k, ∃ ts gs r,
      tf_benchAux c avail device fuel k = .ok (ts, gs, r) ∧
      ts.length = fuel ∧ gs.length = fuel := by
  intro fuel
  induction fuel with
  | zero => exact fun _ => ⟨[], [], none, rfl, rfl, rfl⟩
  | succ fuel ih =>
      intro k
      obtain ⟨ts, gs, r, heq, hts, hgs⟩ := ih (k + 4)
      refine ⟨(c.read (k + 3) - c.read k) :: ts,
        (c.read (k + 2) - c.read (k + 1)) :: gs, some (r.getD tfResult), ?_,
        by simpa using hts, by simpa using hgs⟩
      simp only [tf_benchAux, tf_trial_ok c avail device h k, heq]

lemma torch_benchAux_ok (c : Clock) (avail : List String) (device : String)
    (h : device ∈ avail) :
    ∀ fuel k, ∃ ts gs r,
      torch_benchAux c avail device fuel k = .ok (ts, gs, r) ∧
      ts.length = fuel ∧ gs.length = fuel := by
  intro fuel
  induction fuel with
  | zero => exact fun _ => ⟨[], [], none, rfl, rfl, rfl⟩
  | succ fuel ih =>
      intro k
      obtain ⟨ts, gs, r, heq, hts, hgs⟩ := ih (k + 4)
      refine ⟨(c.read (k + 3) - c.read k) :: ts,
        (c.read (k + 2) - c.read (k + 1)) :: gs, some (r.getD torchResult), ?_,
        by simpa using hts, by simpa using hgs⟩
      simp only [torch_benchAux, torch_trial_ok c avail device h k, heq]

lemma pytaco_benchAux_ok (c : Clock) :
    ∀ fuel k, ∃ ts gs r,
      pytaco_benchAux c fuel k = .ok (ts, gs, r) ∧
      ts.length = fuel ∧ gs.length = fuel := by
  intro fuel
  induction fuel with
  | zero => exact fun _ => ⟨[], [], none, rfl, rfl, rfl⟩
  | succ fuel ih =>
      intro k
      obtain ⟨ts, gs, r, heq, hts, hgs⟩ := ih (k + 4)
      refine ⟨(c.read (k + 3) - c.read k) :: ts,
        (c.read (k + 2) - c.read (k + 1)) :: gs, some (r.getD pytacoCollected), ?_,
        by simpa using hts, by simpa using hgs⟩
      simp only [pytaco_benchAux, pytaco_trial_ok c k, heq]

lemma raw_python_benchAux_fst_length (c : Clock) (sq : ℚ → ℚ) :
    ∀ fuel k, (raw_python_benchAux c sq fuel k).1.length = fuel := by
  intro fuel
  induction fuel with
  | zero => intro k; rfl
  | succ fuel ih =>
      intro k
      simp [raw_python_benchAux, raw_trial, ih]

lemma granular_le_total_step (c : Clock) (hm : Monotone c.read) (k : Nat) :
    c.read (k + 2) - c.read (k + 1) ≤ c.read (k + 3) - c.read k := by
  have h1 := hm (show k + 2 ≤ k + 3 by omega)
  have h2 := hm (show k ≤ k + 1 by omega)
  linarith

lemma tf_benchAux_forall2 (c : Clock) (avail : List String) (device : String)
    (hm : Monotone c.read) :
    ∀ fuel k,
      List.Forall₂ (fun t g => g ≤ t)
        (benchTimes (tf_benchAux c avail device fuel k)).1
        (benchTimes (tf_benchAux c avail device fuel k)).2 := by
  intro fuel
  induction fuel with
  | zero => intro _; exact List.Forall₂.nil
  | succ fuel ih =>
      intro k
      by_cases h : device ∈ avail
      · obtain ⟨ts, gs, r, heq, _, _⟩ := tf_benchAux_ok c avail device h fuel (k + 4)
        have ihk := ih (k + 4)
        rw [heq] at ihk
        simp only [benchTimes] at ihk
        simp only [tf_benchAux, tf_trial_ok c avail device h k, heq, benchTimes]
        exact List.Forall₂.cons (granular_le_total_step c hm k) ihk
      · simp only [tf_benchAux, tf_trial_error c avail device h k, benchTimes]
        exact List.Forall₂.nil

lemma torch_benchAux_forall2 (c : Clock) (avail : List String) (device : String)
    (hm : Monotone c.read) :
    ∀ fuel k,
      List.Forall₂ (fun t g => g ≤ t)
        (benchTimes (torch_benchAux c avail device fuel k)).1
        (benchTimes (torch_benchAux c avail device fuel k)).2 := by
  intro fuel
  induction fuel with
  | zero => intro _; exact List.Forall₂.nil
  | succ fuel ih =>
      intro k
      by_cases h : device ∈ avail
      · obtain ⟨ts, gs, r, heq, _, _⟩ :=
          torch_benchAux_ok c avail device h fuel (k + 4)
        have ihk := ih (k + 4)
        rw [heq] at ihk
        simp only [benchTimes] at ihk
        simp only [torch_benchAux, torch_trial_ok c avail device h k, heq,
          benchTimes]
        exact List.Forall₂.cons (granular_le_total_step c hm k) ihk
      · simp only [torch_benchAux, torch_trial_error c avail device h k,
          benchTimes]
        exact List.Forall₂.nil

lemma pytaco_benchAux_forall2 (c : Clock) (hm : Monotone c.read) :
    ∀ fuel k,
      List.Forall₂ (fun t g => g ≤ t)
        (benchTimes (pytaco_benchAux c fuel k)).1
        (benchTimes (pytaco_benchAux c fuel k)).2 := by
  intro fuel
  induction fuel with
  | zero => intro _; exact List.Forall₂.nil
  | succ fuel ih =>
      intro k
      obtain ⟨ts, gs, r, heq, _, _⟩ := pytaco_benchAux_ok c fuel (k + 4)
      have ihk := ih (k + 4)
      rw [heq] at ihk
      simp only [benchTimes] at ihk
      simp only [pytaco_benchAux, pytaco_trial_ok c k, heq, benchTimes]
      exact List.Forall₂.cons (granular_le_total_step c hm k) ihk

lemma sqrtRow_eq_map (sq : ℚ → ℚ) (r : List ℚ) : sqrtRow sq r = r.map sq := by
  induction r with
  | nil => rfl
  | cons x xs ih => simp [sqrtRow, ih]

lemma sqrtRows_eq_map (sq : ℚ → ℚ) (rows : List (List ℚ)) :
    sqrtRows sq rows = rows.map fun r => r.map sq := by
  induction rows with
  | nil => rfl
  | cons r rs ih => simp [sqrtRows, sqrtRow_eq_map, ih]

lemma idx2_sqrtRows (sq : ℚ → ℚ) (rows : List (List ℚ)) (i j : Nat) :
    idx2 (sqrtRows sq rows) i j = (idx2 rows i j).map sq := by
  rw [sqrtRows_eq_map]
  simp only [idx2, List.get?_map]
  cases rows.get? i with
  | none => rfl
  | some row => simp [List.get?_map]

lemma raw_python_benchAux_getD (c : Clock) (sq : ℚ → ℚ) :
    ∀ fuel k,
      ((raw_python_benchAux c sq fuel k).2).getD (sqrtRows sq (setup 0)) =
        sqrtRows sq (setup 0) := by
  intro fuel
  induction fuel with
  | zero => intro _; rfl
  | succ fuel ih =>
      intro k
      simp only [raw_python_benchAux, raw_trial, perfCounter]
      simp [ih (k + 2)]

/-! ### Claims -/

/-- Claim C1 — counterexample.  The claim says every backend adapter,
`awkward_bench` included, returns a triple of two `n_trials`-length timing
lists and a result; but at `n_trials = 1` `awkward_bench` raises the
unpacking `ValueError` (before any clock read) and returns nothing. -/
theorem adapters_triple_counterexample :
    awkward_bench natClock 1 = .error (.unpackError, 0) := by
  rw [awkward_bench, awkward_benchAux, awkward_trial_error]

/-- Claim C1 — amended.  For every `n_trials ≥ 1` and an available device:
`tf_bench`, `torch_bench` and `pytaco_bench` return triples whose two
timing lists each have length `n_trials`; `raw_python_bench` returns a
pair (total-time list of length `n_trials` and the last mutated dataset,
no granular list); and `awkward_bench` raises its unpacking error instead
of returning. -/
theorem adapters_return_shapes (c : Clock) (avail : List String)
    (device : String) (sq : ℚ → ℚ) (n : Nat) (h : 1 ≤ n)
    (hdev : device ∈ avail) :
    (∃ ts gs r, tf_bench c avail device n = .ok (ts, gs, r) ∧
      ts.length = n ∧ gs.length = n) ∧
    (∃ ts gs r, torch_bench c avail device n = .ok (ts, gs, r) ∧
      ts.length = n ∧ gs.length = n) ∧
    (∃ ts gs r, pytaco_bench c n = .ok (ts, gs, r) ∧
      ts.length = n ∧ gs.length = n) ∧
    (raw_python_bench c sq n).1.length = n ∧
    awkward_bench c n = .error (.unpackError, 0) :=
  ⟨tf_benchAux_ok c avail device hdev n 0,
   torch_benchAux_ok c avail device hdev n 0,
   pytaco_benchAux_ok c n 0,
   raw_python_benchAux_fst_length c sq n 0,
   awkward_benchAux_error c n 0 h⟩

/-- Claim C1 — witness for the amended theorem at `n_trials = 1` on an
available device. -/
theorem adapters_return_shapes_witness :
    1 ≤ 1 ∧ "/device:CPU:0" ∈ ["/device:CPU:0"] ∧
    (∃ ts gs r,
      tf_bench natClock ["/device:CPU:0"] "/device:CPU:0" 1 =
        .ok (ts, gs, r) ∧ ts.length = 1 ∧ gs.length = 1) :=
  ⟨by decide, by simp,
   (adapters_return_shapes natClock ["/device:CPU:0"] "/device:CPU:0"
     id 1 (by decide) (by simp)).1⟩

/-- Claim C2: for every trial count `n ≥ 1`, `awkward_bench` raises during
its first trial and never returns — the unpacking of `setup()` into
`(ragged_data, regular_data)` fails on the 10000-row array, before any
timing (the error carries clock-call count 0) or computation happens. -/
theorem awkward_bench_always_raises (c : Clock) (n : Nat) (h : 1 ≤ n) :
    awkward_bench c n = .error (.unpackError, 0) :=
  awkward_benchAux_error c n 0 h

/-- Claim C2 — witness at `n_trials = 2`. -/
theorem awkward_bench_always_raises_witness :
    1 ≤ 2 ∧ awkward_bench natClock 2 = .error (.unpackError, 0) :=
  ⟨by decide, awkward_bench_always_raises natClock 2 (by decide)⟩

/-- Claim C3: whenever position `[10][1]` exists in both the result and the
dataset, `check_result d r` returns normally exactly when `r[10][1]` is
allclose to `d[10][1] ** 4` (default relative tolerance `1e-7`) and the
class-appropriate shape condition holds (outer-length match for plain and
`tf.RaggedTensor` results, nothing for `torch.Tensor` results); any
violated condition yields an assertion failure. -/
theorem check_result_spec (orig_data : List (List ℚ)) (result : BResult)
    (a d : ℚ) (ha : idx2 result.rows 10 1 = some a)
    (hd : idx2 orig_data 10 1 = some d) :
    (check_result orig_data result = .ok () ↔
      allclose a (d ^ 4) ∧ shapeOK orig_data result) ∧
    (¬(allclose a (d ^ 4) ∧ shapeOK orig_data result) →
      check_result orig_data result = .error .assertionError) := by
  obtain ⟨kind, rows⟩ := result
  simp only at ha
  cases kind with
  | plain =>
      by_cases hlen : rows.length = orig_data.length <;>
        by_cases hac : allclose a (d ^ 4) <;>
          simp [check_result, shapeOK, ha, hd, hlen, hac]
  | tfRagged =>
      by_cases hlen : rows.length = orig_data.length <;>
        by_cases hac : allclose a (d ^ 4) <;>
          simp [check_result, shapeOK, ha, hd, hlen, hac]
  | torchTensor =>
      by_cases hac : allclose a (d ^ 4) <;>
        simp [check_result, shapeOK, ha, hd, hac]

/-- Claim C3 — witness: an 11-row dataset and a matching plain result pass
the check. -/
theorem check_result_spec_witness :
    check_result (List.replicate 11 [0, 0]) ⟨.plain, List.replicate 11 [0, 0]⟩ =
      .ok () :=
  (check_result_spec (List.replicate 11 [0, 0])
    ⟨.plain, List.replicate 11 [0, 0]⟩ 0 0 rfl rfl).1.mpr
    ⟨by norm_num [allclose, rtol], by simp [shapeOK]⟩

/-- Claim C4: `setup` is deterministic — any two invocations, whatever
generator state the process carries (`e1`, `e2`), produce identical and
hence element-wise identical ragged datasets, because each invocation
re-initialises the generator from the fixed seed 123 instead of reusing
ambient state. -/
theorem setup_is_deterministic (e1 e2 : Nat) :
    setup e1 = setup e2 ∧
    setup e1 = setupFromGen (default_rng 123) ∧
    ∀ i j, idx2 (setup e1) i j = idx2 (setup e2) i j :=
  ⟨rfl, rfl, fun _ _ => rfl⟩

/-- Claim C5: the dataset has exactly 10000 rows; row `i` (0-indexed) has
`i + 1` elements; every element lies in `[0, 1)`; and the total element
count is `10000 * 10001 / 2 = 50005000`. -/
theorem setup_dataset_shape :
    (setup 0).length = 10000 ∧
    (∀ i row, (setup 0).get? i = some row → row.length = i + 1) ∧
    (∀ i j x, idx2 (setup 0) i j = some x → 0 ≤ x ∧ x < 1) ∧
    ((setup 0).map List.length).sum = 50005000 := by
  refine ⟨setup_length 0, ?_, ?_, ?_⟩
  · intro i row hrow
    have hi : i < (setup 0).length := by
      by_contra hcon
      rw [List.get?_eq_none.mpr (by omega)] at hrow
      exact Option.noConfusion hrow
    have hi10 : i < 10000 := by rw [setup_length 0] at hi; omega
    have hmap := congrArg (fun l => l.get? i) (setup_map_length 0)
    simp only [List.get?_map, hrow, get?_range' 1 10000 i hi10] at hmap
    simp only [Option.map_some', Option.some.injEq] at hmap
    omega
  · intro i j x hx
    rw [idx2] at hx
    cases hr : (setup 0).get? i with
    | none => rw [hr] at hx; exact Option.noConfusion hx
    | some row =>
        rw [hr] at hx
        exact setup_mem_bounds 0 row (List.get?_mem hr) x (List.get?_mem hx)
  · rw [setup_map_length 0]
    have h := two_mul_sum_range' 9999 1
    norm_num at h
    omega

/-- Claim C5 — witness: row 2 has three elements and its first element lies
in `[0, 1)`. -/
theorem setup_dataset_shape_witness :
    (∃ row, (setup 0).get? 2 = some row ∧ row.length = 3) ∧
    (∃ x, idx2 (setup 0) 2 0 = some x ∧ 0 ≤ x ∧ x < 1) := by
  have h := setup_dataset_shape
  have h2 : 2 < (setup 0).length := by rw [h.1]; omega
  have hrow : (setup 0).get? 2 = some ((setup 0).get ⟨2, h2⟩) :=
    List.get?_eq_get h2
  have hrl : ((setup 0).get ⟨2, h2⟩).length = 3 := h.2.1 2 _ hrow
  have h0 : 0 < ((setup 0).get ⟨2, h2⟩).length := by omega
  have hx : ((setup 0).get ⟨2, h2⟩).get? 0 =
      some (((setup 0).get ⟨2, h2⟩).get ⟨0, h0⟩) := List.get?_eq_get h0
  have hidx : idx2 (setup 0) 2 0 =
      some (((setup 0).get ⟨2, h2⟩).get ⟨0, h0⟩) := by
    rw [idx2, hrow, Option.some_bind, hx]
  exact ⟨⟨_, hrow, hrl⟩, ⟨_, hidx, h.2.2.1 2 0 _ hidx⟩⟩

/-- Claim C6: after `raw_python_bench` completes (any `n ≥ 1` trials), the
returned object is the last trial's dataset with every element replaced
in place by its square root: position `(i, j)` of the result is `sq`
applied to the value the generator placed at `(i, j)`. -/
theorem raw_python_bench_sqrt (c : Clock) (sq : ℚ → ℚ) (n : Nat)
    (h : 1 ≤ n) :
    (raw_python_bench c sq n).2 = some (sqrtRows sq (setup 0)) ∧
    ∀ i j, idx2 (sqrtRows sq (setup 0)) i j = (idx2 (setup 0) i j).map sq := by
  refine ⟨?_, fun i j => idx2_sqrtRows sq (setup 0) i j⟩
  obtain ⟨m, rfl⟩ : ∃ m, n = m + 1 := ⟨n - 1, by omega⟩
  show (raw_python_benchAux c sq (m + 1) 0).2 = _
  simp only [raw_python_benchAux, raw_trial, perfCounter]
  simp [raw_python_benchAux_getD c sq m 2]

/-- Claim C6 — witness at one trial with `sq = id`. -/
theorem raw_python_bench_sqrt_witness :
    1 ≤ 1 ∧ (raw_python_bench natClock id 1).2 = some (sqrtRows id (setup 0)) :=
  ⟨by decide, (raw_python_bench_sqrt natClock id 1 (by decide)).1⟩

/-- Claim C7: under a monotone clock, every adapter that reports both phases
and returns (tf, torch, pytaco) yields timing lists with
`granular_times[t] ≤ total_times[t]` at every trial index (stated as a
pointwise `Forall₂`, which also forces equal lengths); `awkward_bench`
nominally reports both phases but never returns (see C2). -/
theorem granular_le_total (c : Clock) (avail : List String) (device : String)
    (n : Nat) (hm : Monotone c.read) :
    List.Forall₂ (fun t g => g ≤ t)
      (benchTimes (tf_bench c avail device n)).1
      (benchTimes (tf_bench c avail device n)).2 ∧
    List.Forall₂ (fun t g => g ≤ t)
      (benchTimes (torch_bench c avail device n)).1
      (benchTimes (torch_bench c avail device n)).2 ∧
    List.Forall₂ (fun t g => g ≤ t)
      (benchTimes (pytaco_bench c n)).1
      (benchTimes (pytaco_bench c n)).2 :=
  ⟨tf_benchAux_forall2 c avail device hm n 0,
   torch_benchAux_forall2 c avail device hm n 0,
   pytaco_benchAux_forall2 c hm n 0⟩

/-- Claim C7 — witness: the natural-number clock is monotone and the
pointwise bound holds for a `pytaco_bench` run under it. -/
theorem granular_le_total_witness :
    Monotone natClock.read ∧
    List.Forall₂ (fun t g => g ≤ t)
      (benchTimes (pytaco_bench natClock 1)).1
      (benchTimes (pytaco_bench natClock 1)).2 :=
  ⟨fun _ _ hab => Nat.cast_le.mpr hab,
   (granular_le_total natClock [] "cpu" 1
     fun _ _ hab => Nat.cast_le.mpr hab).2.2⟩

/-- Claim C8 — counterexample.  The claim says the granular window times
only the `x*x*x*x` computation, with any force-evaluation step belonging
to total time only; but in both the tf trial (the forcing
`print(result[10][1])`, line 95) and the pytaco trial (the forcing
`result.evaluate()`, line 157) the force-evaluation step sits inside the
granular window. -/
theorem granular_window_counterexample :
    Event.forceEval ∈ granularWindow tfTrialTrace ∧
    Event.forceEval ∈ granularWindow pytacoTrialTrace := by decide

/-- Claim C8 — amended.  Conversion (tf/torch) and tensor construction plus
element-by-element insertion (pytaco) occur after the total timer starts
and before the granular timer starts, so their cost is in the total
sample and excluded from the granular sample; but the granular window
times the `x*x*x*x` computation *together with* the backend's
force-evaluation step (the print for tf/torch, `evaluate()` for pytaco);
only pytaco's `to_array` collect step lies in total time alone. -/
theorem timer_ordering_amended :
    (tfTrialTrace.indexOf .startTotal < tfTrialTrace.indexOf .convertToBackend ∧
     tfTrialTrace.indexOf .convertToBackend <
       tfTrialTrace.indexOf .startGranular ∧
     granularWindow tfTrialTrace = [.computeMul, .forceEval] ∧
     tfTrialTrace.indexOf .stopGranular < tfTrialTrace.indexOf .stopTotal) ∧
    (torchTrialTrace.indexOf .startTotal <
       torchTrialTrace.indexOf .convertToBackend ∧
     torchTrialTrace.indexOf .convertToBackend <
       torchTrialTrace.indexOf .startGranular ∧
     granularWindow torchTrialTrace = [.computeMul, .forceEval] ∧
     torchTrialTrace.indexOf .stopGranular <
       torchTrialTrace.indexOf .stopTotal) ∧
    (pytacoTrialTrace.indexOf .startTotal <
       pytacoTrialTrace.indexOf .createTensor ∧
     pytacoTrialTrace.indexOf .createTensor <
       pytacoTrialTrace.indexOf .insertElement ∧
     pytacoTrialTrace.indexOf .insertElement <
       pytacoTrialTrace.indexOf .createResultTensor ∧
     pytacoTrialTrace.indexOf .createResultTensor <
       pytacoTrialTrace.indexOf .startGranular ∧
     granularWindow pytacoTrialTrace = [.computeMul, .forceEval] ∧
     pytacoTrialTrace.indexOf .stopGranular <
       pytacoTrialTrace.indexOf .collectResult ∧
     pytacoTrialTrace.indexOf .collectResult <
       pytacoTrialTrace.indexOf .stopTotal) := by decide

/-- Claim C9: invoking a memoized function a second time with the same
argument returns the first call's value and leaves the store and the
execution counter unchanged (no re-execution); on a miss the full return
value is stored under the argument key, is returned, and the counter is
bumped. -/
theorem memo_cache_idempotent {α β : Type} [DecidableEq α] (f : α → β)
    (a : α) (s : MemoState α β) :
    memoCall f a (memoCall f a s).2 = memoCall f a s ∧
    (lookupMemo s.entries a = none →
      (memoCall f a s).1 = f a ∧
      lookupMemo (memoCall f a s).2.entries a = some (f a) ∧
      (memoCall f a s).2.execCount = s.execCount + 1) := by
  cases h : lookupMemo s.entries a with
  | some v =>
      exact ⟨by simp [memoCall, h], fun hn => Option.noConfusion hn⟩
  | none =>
      exact ⟨by simp [memoCall, h, lookupMemo],
        fun _ => by simp [memoCall, h, lookupMemo]⟩

/-- Claim C9 — witness: a first call on an empty store misses, stores and
returns `f 0 = 1`, and bumps the counter. -/
theorem memo_cache_idempotent_witness :
    lookupMemo ([] : List (Nat × Nat)) 0 = none ∧
    (memoCall (fun n => n + 1) 0 (⟨[], 0⟩ : MemoState Nat Nat)).1 = 1 ∧
    lookupMemo
      (memoCall (fun n => n + 1) 0 (⟨[], 0⟩ : MemoState Nat Nat)).2.entries
      0 = some 1 ∧
    (memoCall (fun n => n + 1) 0 (⟨[], 0⟩ : MemoState Nat Nat)).2.execCount =
      1 :=
  ⟨rfl, (memo_cache_idempotent (fun n => n + 1) 0 ⟨[], 0⟩).2 rfl⟩

/-- Claim C10: invoking `tf_bench` or `torch_bench` with a device that is
not available fails on the first trial with the *BackendUnavailable*
condition, which propagates out of the whole invocation (no fallback to
another device — the error, raised after the single `start` clock read,
is the entire outcome). -/
theorem device_unavailable_aborts (c : Clock) (avail : List String)
    (device : String) (n : Nat) (h : 1 ≤ n) (hdev : device ∉ avail) :
    tf_bench c avail device n = .error (.backendUnavailable, 1) ∧
    torch_bench c avail device n = .error (.backendUnavailable, 1) := by
  obtain ⟨m, rfl⟩ : ∃ m, n = m + 1 := ⟨n - 1, by omega⟩
  constructor
  · rw [tf_bench, tf_benchAux, tf_trial_error c avail device hdev 0]
  · rw [torch_bench, torch_benchAux, torch_trial_error c avail device hdev 0]

/-- Claim C10 — witness: requesting the GPU device when only the CPU device
exists aborts both adapters. -/
theorem device_unavailable_aborts_witness :
    1 ≤ 1 ∧ "/device:GPU:0" ∉ ["/device:CPU:0"] ∧
    tf_bench natClock ["/device:CPU:0"] "/device:GPU:0" 1 =
      .error (.backendUnavailable, 1) ∧
    torch_bench natClock ["/device:CPU:0"] "/device:GPU:0" 1 =
      .error (.backendUnavailable, 1) :=
  ⟨by decide, by simp,
   device_unavailable_aborts natClock ["/device:CPU:0"] "/device:GPU:0" 1
     (by decide) (by simp)⟩

end Bench
